import Mathlib

/-!
# Kanban board service: a shallow embedding of `main.py`

This file embeds the FastAPI kanban backend (`src/main.py`) in Lean and proves
properties of its endpoints.  The document store (two collections, `column` and
`task`) is modelled as lists of documents; the driver operations used by the
code — `find` (with filter/sort/limit), `find_one`, `update_one` with `$set`,
`delete_one`, `delete_many`, `insert_one` — are modelled as list functions that
mirror MongoDB's behaviour: `find_one`/`update_one`/`delete_one` act on the
first matching document, a descending sort with `limit(1)` yields a document of
maximal sort key, and `update_one` with an empty `$set` document is rejected by
the store.

BSON `ObjectId` parsing accepts exactly the 24-character hexadecimal strings
(case-insensitive, normalised to lower case); any other path id raises, which
the endpoints turn into a 400 `InvalidId` response.

Each endpoint returns the resulting store, the list of store operations it
performed (used to state "no store call happens" properties), and either a
response value or the error it raises.
-/

namespace Kanban

/-! ## Data model -/

/-- A document of the `column` collection, after `to_str_id`: the store's
`_id` is rendered as the string field `id`.  `position` may be missing in a
raw document (`c.get("position", 0)` in the code), so it is an `Option`. -/
structure ColumnDoc where
  id : String
  name : String
  position : Option Int
deriving DecidableEq

/-- A document of the `task` collection.  Every task written by the service
carries an integer `position` (the `TaskSchema` always sets one), so the field
is total here. -/
structure TaskDoc where
  id : String
  title : String
  description : Option String
  column_id : String
  position : Int
  priority : String
  tags : List String
deriving DecidableEq

/-- The document store: the `column` and `task` collections. -/
structure Store where
  columns : List ColumnDoc
  tasks : List TaskDoc
deriving DecidableEq

/-! ## ObjectId parsing (`bson.ObjectId`) -/

/-- Hexadecimal digit test: `0`-`9`, `a`-`f`, `A`-`F`. -/
def isHexChar (c : Char) : Bool :=
  c.isDigit || decide (97 ≤ c.toNat ∧ c.toNat ≤ 102) || decide (65 ≤ c.toNat ∧ c.toNat ≤ 70)

/-- `ObjectId(s)` succeeds on exactly the 24-character hex strings. -/
def isValidObjectId (s : String) : Bool :=
  s.length == 24 && s.data.all isHexChar

/-- Lower-casing, character by character (`str.lower()` on hex digits). -/
def toLowerStr (s : String) : String :=
  String.mk (s.data.map Char.toLower)

/-- `ObjectId(s)`: a parsed ObjectId is modelled as its canonical (lower-case)
hex rendering, so that two spellings of the same id compare equal, as the raw
12-byte values do in the store. -/
def parseObjectId (s : String) : Option String :=
  if isValidObjectId s then some (toLowerStr s) else none

/-! ## Request payload models (the pydantic classes) -/

/-- `ColumnUpdate`: both fields optional; `model_dump` entries that are `None`
are dropped before the `$set`, so an `Option.none` field is "absent". -/
structure ColumnUpdate where
  name : Option String
  position : Option Int
deriving DecidableEq

/-- `updates = {k: v for k, v in payload.model_dump().items() if v is not None}`
is empty iff every payload field is `None`. -/
def ColumnUpdate.isEmptyPatch (u : ColumnUpdate) : Bool :=
  u.name.isNone && u.position.isNone

/-- `TaskCreate`. -/
structure TaskCreate where
  title : String
  description : Option String
  column_id : String
  position : Option Int
  priority : Option String
  tags : Option (List String)
deriving DecidableEq

/-- `TaskUpdate`. -/
structure TaskUpdate where
  title : Option String
  description : Option String
  column_id : Option String
  position : Option Int
  priority : Option String
  tags : Option (List String)
deriving DecidableEq

/-- The filtered `updates` dict of `update_task` is empty iff every payload
field is `None`. -/
def TaskUpdate.isEmptyPatch (u : TaskUpdate) : Bool :=
  u.title.isNone && u.description.isNone && u.column_id.isNone &&
    u.position.isNone && u.priority.isNone && u.tags.isNone

/-! ## Responses and errors -/

/-- The errors the endpoints raise: `HTTPException(400, "Invalid ... id")`,
`HTTPException(404, "... not found")`, and an uncaught store/driver failure
that surfaces as a generic 500. -/
inductive ApiError
  | invalidId
  | notFound
  | storeError
deriving DecidableEq

/-- Result of a PATCH endpoint: either `{"updated": False}` (nothing changed)
or the re-fetched document. -/
inductive PatchResult (α : Type)
  | noChange
  | doc (d : α)
deriving DecidableEq

/-- The store operations an endpoint can perform, recorded so that theorems
can state that an endpoint made no store call (or no write). -/
inductive StoreOp
  | colUpdateOne
  | colFindOne
  | colDeleteOne
  | taskFindSorted
  | taskUpdateOne
  | taskFindOne
  | taskDeleteOne
  | taskDeleteMany
deriving DecidableEq

deriving instance DecidableEq for Except

/-- Outcome of an endpoint call: the store afterwards, the store operations
performed, and the response or raised error. -/
structure Out (ρ : Type) where
  store : Store
  ops : List StoreOp
  res : Except ApiError ρ
deriving DecidableEq

/-! ## Driver operations on collections -/

/-- `update_one`: apply `f` to the first document matching `p`. -/
def updateFirst (p : α → Bool) (f : α → α) : List α → List α
  | [] => []
  | x :: xs => if p x then f x :: xs else x :: updateFirst p f xs

/-- `delete_one`: remove the first document matching `p`. -/
def deleteFirst (p : α → Bool) : List α → List α
  | [] => []
  | x :: xs => if p x then xs else x :: deleteFirst p xs

/-- `$set` with a `ColumnUpdate` updates dict: present fields overwrite. -/
def applyColumnSet (u : ColumnUpdate) (c : ColumnDoc) : ColumnDoc :=
  { c with
    name := u.name.getD c.name,
    position := match u.position with
      | some q => some q
      | none => c.position }

/-- `$set` with a `TaskUpdate` updates dict: present fields overwrite. -/
def applyTaskSet (u : TaskUpdate) (t : TaskDoc) : TaskDoc :=
  { t with
    title := u.title.getD t.title,
    description := match u.description with
      | some d => some d
      | none => t.description,
    column_id := u.column_id.getD t.column_id,
    position := u.position.getD t.position,
    priority := u.priority.getD t.priority,
    tags := u.tags.getD t.tags }

/-! ## Sort orders used by the endpoints -/

/-- Ascending column order for `cols.sort(key=lambda c: c.get("position", 0))`. -/
def colPosLe (a b : ColumnDoc) : Prop :=
  a.position.getD 0 ≤ b.position.getD 0

instance : DecidableRel colPosLe :=
  fun a b => inferInstanceAs (Decidable (a.position.getD 0 ≤ b.position.getD 0))

instance : IsTotal ColumnDoc colPosLe :=
  ⟨fun a b => Int.le_total (a.position.getD 0) (b.position.getD 0)⟩

instance : IsTrans ColumnDoc colPosLe :=
  ⟨fun _ _ _ hab hbc => Int.le_trans hab hbc⟩

/-- Ascending task order for `tasks.sort(key=lambda t: t.get("position", 0))`. -/
def taskPosLe (a b : TaskDoc) : Prop :=
  a.position ≤ b.position

instance : DecidableRel taskPosLe :=
  fun a b => inferInstanceAs (Decidable (a.position ≤ b.position))

instance : IsTotal TaskDoc taskPosLe :=
  ⟨fun a b => Int.le_total a.position b.position⟩

instance : IsTrans TaskDoc taskPosLe :=
  ⟨fun _ _ _ hab hbc => Int.le_trans hab hbc⟩

/-- Descending task order for `.sort("position", -1)`. -/
def taskPosGe (a b : TaskDoc) : Prop :=
  b.position ≤ a.position

instance : DecidableRel taskPosGe :=
  fun a b => inferInstanceAs (Decidable (b.position ≤ a.position))

instance : IsTotal TaskDoc taskPosGe :=
  ⟨fun a b => Int.le_total b.position a.position⟩

instance : IsTrans TaskDoc taskPosGe :=
  ⟨fun _ _ _ hab hbc => Int.le_trans hbc hab⟩

/-! ## Position computation of `create_task` / `update_task` -/

/-- `db["task"].find({"column_id": col}).sort("position", -1).limit(1)`:
filter the collection, sort descending by `position`, keep the head. -/
def lastPosQuery (tasks : List TaskDoc) (col : String) : Option TaskDoc :=
  (List.insertionSort taskPosGe (tasks.filter (fun t => t.column_id == col))).head?

/-- The `last_pos` loop: starts at 0, and the (at most one) returned document
sets it to its position plus 1. -/
def computedLastPos (tasks : List TaskDoc) (col : String) : Int :=
  match lastPosQuery tasks col with
  | none => 0
  | some d => d.position + 1

/-- The specification's formulation of the same computation: the new position
is the maximum `position` among tasks of the column plus 1, or 0 when the
column holds no task. -/
def specEndPos (tasks : List TaskDoc) (col : String) : Int :=
  WithBot.recBotCoe (C := fun _ => Int) 0 (fun m => m + 1)
    ((tasks.filter (fun t => t.column_id == col)).map TaskDoc.position).maximum

/-! ## Endpoints -/

/-- `GET /api/columns`: all columns, sorted ascending by `position` with a
missing `position` read as 0.  Total: the handler has no error branch. -/
def list_columns (st : Store) : List ColumnDoc :=
  List.insertionSort colPosLe st.columns

/-- `GET /api/tasks?column_id=`: the filter is applied only when the query
parameter is truthy (`if column_id:`), i.e. present and non-empty; the result
is sorted ascending by `position`. -/
def list_tasks (st : Store) (column_id : Option String) : List TaskDoc :=
  let matched := match column_id with
    | none => st.tasks
    | some cid => if cid = "" then st.tasks else st.tasks.filter (fun t => t.column_id == cid)
  List.insertionSort taskPosLe matched

/-- `POST /api/tasks`: computes `last_pos` as end of the target column
(ignoring `payload.position` entirely), inserts the new document with the
fresh id `newId`, and re-fetches it with `find_one`.  `payload.priority or
"normal"` maps both `None` and `""` to `"normal"`; `payload.tags or []`
agrees with `getD []`. -/
def create_task (st : Store) (newId : String) (payload : TaskCreate) :
    Store × Option TaskDoc :=
  let last_pos := computedLastPos st.tasks payload.column_id
  let t : TaskDoc :=
    { id := newId,
      title := payload.title,
      description := payload.description,
      column_id := payload.column_id,
      position := last_pos,
      priority := match payload.priority with
        | some s => if s = "" then "normal" else s
        | none => "normal",
      tags := payload.tags.getD [] }
  let tasks2 := st.tasks ++ [t]
  (⟨st.columns, tasks2⟩, tasks2.find? (fun x => x.id == newId))

/-- `PATCH /api/columns/{column_id}`: parse the id (400 on failure); if the
filtered updates dict is empty return `{"updated": False}` without any store
call; otherwise `update_one` then `find_one`, raising 404 when the re-fetch
finds nothing. -/
def update_column (st : Store) (column_id : String) (payload : ColumnUpdate) :
    Out (PatchResult ColumnDoc) :=
  match parseObjectId column_id with
  | none => ⟨st, [], .error .invalidId⟩
  | some oid =>
    if payload.isEmptyPatch then ⟨st, [], .ok .noChange⟩
    else
      let cols2 := updateFirst (fun c => c.id == oid) (applyColumnSet payload) st.columns
      ⟨⟨cols2, st.tasks⟩,
       [StoreOp.colUpdateOne, StoreOp.colFindOne],
       match cols2.find? (fun c => c.id == oid) with
       | none => .error .notFound
       | some d => .ok (.doc d)⟩

/-- `DELETE /api/columns/{column_id}`: parse the id; `delete_one` on the
columns; then — before the 404 check — `delete_many` of every task whose
`column_id` string equals the raw path parameter; 404 when the column delete
matched nothing (the task cascade has run regardless). -/
def delete_column (st : Store) (column_id : String) : Out Bool :=
  match parseObjectId column_id with
  | none => ⟨st, [], .error .invalidId⟩
  | some oid =>
    let deleted_count : Nat := if st.columns.any (fun c => c.id == oid) then 1 else 0
    let st2 : Store :=
      ⟨deleteFirst (fun c => c.id == oid) st.columns,
       st.tasks.filter (fun t => !(t.column_id == column_id))⟩
    ⟨st2, [StoreOp.colDeleteOne, StoreOp.taskDeleteMany],
     if deleted_count == 0 then .error .notFound else .ok true⟩

/-- The `update_task` special rule: when the updates dict contains `column_id`
but no `position`, the new position is computed as end of the target column
(one extra read of the task collection). -/
def taskUpdatesWithRule (st : Store) (u : TaskUpdate) : TaskUpdate × List StoreOp :=
  if u.column_id.isSome && u.position.isNone then
    ({ u with position := some (computedLastPos st.tasks (u.column_id.getD "")) },
     [StoreOp.taskFindSorted])
  else (u, [])

/-- `PATCH /api/tasks/{task_id}`: parse the id (400 on failure); apply the
column-move special rule; then `update_one` unconditionally — there is no
empty-patch guard here, and MongoDB rejects an update whose `$set` document is
empty, which the handler does not catch (a 500-equivalent store error);
otherwise `find_one`, raising 404 when the re-fetch finds nothing. -/
def update_task (st : Store) (task_id : String) (payload : TaskUpdate) :
    Out (PatchResult TaskDoc) :=
  match parseObjectId task_id with
  | none => ⟨st, [], .error .invalidId⟩
  | some oid =>
    let su := taskUpdatesWithRule st payload
    if su.1.isEmptyPatch then
      ⟨st, su.2 ++ [StoreOp.taskUpdateOne], .error .storeError⟩
    else
      let tasks2 := updateFirst (fun t => t.id == oid) (applyTaskSet su.1) st.tasks
      ⟨⟨st.columns, tasks2⟩,
       su.2 ++ [StoreOp.taskUpdateOne, StoreOp.taskFindOne],
       match tasks2.find? (fun t => t.id == oid) with
       | none => .error .notFound
       | some d => .ok (.doc d)⟩

/-- `DELETE /api/tasks/{task_id}`: parse the id; `delete_one`; 404 when it
matched nothing. -/
def delete_task (st : Store) (task_id : String) : Out Bool :=
  match parseObjectId task_id with
  | none => ⟨st, [], .error .invalidId⟩
  | some oid =>
    let deleted_count : Nat := if st.tasks.any (fun t => t.id == oid) then 1 else 0
    ⟨⟨st.columns, deleteFirst (fun t => t.id == oid) st.tasks⟩,
     [StoreOp.taskDeleteOne],
     if deleted_count == 0 then .error .notFound else .ok true⟩

/-! ## Diagnostics endpoint (`GET /test`) -/

/-- The store handle as `/test` sees it: `db` may be `None`; otherwise it has
an optional `name` attribute and `list_collection_names()` either returns the
names or raises with a message. -/
structure DbHandle where
  name : Option String
  listCollectionNames : Except String (List String)

/-- The diagnostics response object. -/
structure DiagResponse where
  backend : String
  database : String
  database_url : String
  database_name : String
  connection_status : String
  collections : List String
deriving DecidableEq

/-- `str(e)[:50]`: Python slicing over code points. -/
def strTrunc (s : String) (n : Nat) : String :=
  String.mk (s.data.take n)

/-- `GET /test`: builds the default response, fills in availability, reports at
most 10 collection names, catches the `list_collection_names` failure into a
truncated status message, and finally overwrites `database_url` /
`database_name` from the two environment variables.  The function is total:
every store condition is handled, no error escapes. -/
def test_database (dbc : Option DbHandle) (urlSet : Bool) (nameSet : Bool) :
    DiagResponse :=
  let r0 : DiagResponse :=
    { backend := "✅ Running",
      database := "❌ Not Available",
      database_url := "",
      database_name := "",
      connection_status := "Not Connected",
      collections := [] }
  let r1 := match dbc with
    | some h =>
      let r := { r0 with
        database := "✅ Available",
        database_url := "✅ Configured",
        database_name := h.name.getD "✅ Connected",
        connection_status := "Connected" }
      match h.listCollectionNames with
      | .ok cols => { r with collections := cols.take 10, database := "✅ Connected & Working" }
      | .error e => { r with database := "⚠️  Connected but Error: " ++ strTrunc e 50 }
    | none => { r0 with database := "⚠️  Available but not initialized" }
  { r1 with
    database_url := if urlSet then "✅ Set" else "❌ Not Set",
    database_name := if nameSet then "✅ Set" else "❌ Not Set" }

/-! ## Concrete fixtures, used to instantiate the theorems -/

/-- A well-formed id held by the fixture column. -/
def idA : String := "aaaaaaaaaaaaaaaaaaaaaaaa"

/-- A well-formed id held by the fixture task. -/
def idB : String := "bbbbbbbbbbbbbbbbbbbbbbbb"

/-- A well-formed id used for freshly inserted documents. -/
def idC : String := "cccccccccccccccccccccccc"

/-- A well-formed id matching no document in any fixture store. -/
def idD : String := "dddddddddddddddddddddddd"

/-- A malformed id: `ObjectId("zz")` raises. -/
def badId : String := "zz"

/-- The empty store. -/
def emptyStore : Store := ⟨[], []⟩

/-- One column (id `idA`) and one task (id `idB`) in that column. -/
def baseStore : Store :=
  ⟨[⟨idA, "todo", some 0⟩],
   [⟨idB, "task one", none, idA, 0, "normal", []⟩]⟩

/-- A store whose column `"col1"` holds one task at position 5. -/
def oneTaskStore : Store :=
  ⟨[], [⟨"t0", "only", none, "col1", 5, "normal", []⟩]⟩

/-- A create request that supplies the explicit position 99. -/
def payloadPos99 : TaskCreate := ⟨"new", none, "col1", some 99, none, none⟩

/-- A store whose column `"col1"` holds tasks at positions 0, 1 and 2. -/
def threeTaskStore : Store :=
  ⟨[], [⟨"t1", "a", none, "col1", 0, "normal", []⟩,
        ⟨"t2", "b", none, "col1", 2, "normal", []⟩,
        ⟨"t3", "c", none, "col1", 1, "normal", []⟩]⟩

/-- A create request with no explicit position. -/
def payloadNoPos : TaskCreate := ⟨"new", none, "col1", none, none, none⟩

/-- A task patch moving to column `"col2"` without a position. -/
def movePatch : TaskUpdate := ⟨none, none, some "col2", none, none, none⟩

/-- A task patch that supplies position 7 explicitly. -/
def pos7Patch : TaskUpdate := ⟨none, none, some "col2", some 7, none, none⟩

/-- The empty task patch. -/
def emptyTaskPatch : TaskUpdate := ⟨none, none, none, none, none, none⟩

/-- The empty column patch. -/
def emptyColPatch : ColumnUpdate := ⟨none, none⟩

/-- A column patch renaming the column. -/
def renamePatch : ColumnUpdate := ⟨some "doing", none⟩

/-- A store with tasks in two named columns and one task whose `column_id`
is the empty string. -/
def mixedStore : Store :=
  ⟨[], [⟨"t1", "a", none, "x", 1, "normal", []⟩,
        ⟨"t2", "b", none, "", 0, "normal", []⟩,
        ⟨"t3", "c", none, "y", 2, "normal", []⟩]⟩

/-- A store handle whose `list_collection_names()` raises with a message
longer than 50 characters. -/
def failingHandle : DbHandle :=
  ⟨some "appdb",
   Except.error "connection refused 127.0.0.1:27017 after 30000 ms of waiting for server"⟩

end Kanban

namespace Kanban

/-! ## Helper lemmas about the driver model -/

theorem updateFirst_eq_self {α : Type} (p : α → Bool) (f : α → α) (l : List α)
    (h : ∀ x ∈ l, p x = false) : updateFirst p f l = l := by
  induction l with
  | nil => rfl
  | cons a as ih =>
    have ha := h a (List.mem_cons_self a as)
    simp [updateFirst, ha, ih (fun x hx => h x (List.mem_cons_of_mem a hx))]

theorem deleteFirst_eq_self {α : Type} (p : α → Bool) (l : List α)
    (h : ∀ x ∈ l, p x = false) : deleteFirst p l = l := by
  induction l with
  | nil => rfl
  | cons a as ih =>
    have ha := h a (List.mem_cons_self a as)
    simp [deleteFirst, ha, ih (fun x hx => h x (List.mem_cons_of_mem a hx))]

theorem find?_append_singleton {α : Type} (p : α → Bool) (l : List α) (x : α)
    (h : ∀ y ∈ l, p y = false) (hx : p x = true) :
    (l ++ [x]).find? p = some x := by
  induction l with
  | nil => simp [List.find?, hx]
  | cons a as ih =>
    have ha : p a = false := h a (List.mem_cons_self a as)
    simpa [List.find?, ha] using ih (fun y hy => h y (List.mem_cons_of_mem a hy))

theorem find?_updateFirst {α : Type} (p : α → Bool) (f : α → α) (l : List α) (t : α)
    (hpres : ∀ x, p (f x) = p x) (h : l.find? p = some t) :
    (updateFirst p f l).find? p = some (f t) := by
  induction l with
  | nil => simp [List.find?] at h
  | cons a as ih =>
    cases hpa : p a with
    | true =>
      have hta : t = a := by
        have := h
        simp [List.find?, hpa] at this
        exact this.symm
      subst hta
      simp [updateFirst, hpa, List.find?, hpres t]
    | false =>
      have h2 : as.find? p = some t := by
        have := h
        simpa [List.find?, hpa] using this
      simp [updateFirst, hpa, List.find?, ih h2]

/-- The descending-sort-and-take-one computation of `create_task` agrees with
the specification's "maximum plus one, or zero" formulation. -/
theorem computedLastPos_eq_specEndPos (tasks : List TaskDoc) (col : String) :
    computedLastPos tasks col = specEndPos tasks col := by
  simp only [computedLastPos, specEndPos, lastPosQuery]
  cases hs : List.insertionSort taskPosGe (tasks.filter (fun t => t.column_id == col)) with
  | nil =>
    have hp := List.perm_insertionSort taskPosGe (tasks.filter (fun t => t.column_id == col))
    rw [hs] at hp
    have hnil := hp.symm.eq_nil
    simp [hnil]
  | cons d rest =>
    have hp := List.perm_insertionSort taskPosGe (tasks.filter (fun t => t.column_id == col))
    rw [hs] at hp
    have hsort := List.sorted_insertionSort taskPosGe (tasks.filter (fun t => t.column_id == col))
    rw [hs] at hsort
    have hmem : d ∈ tasks.filter (fun t => t.column_id == col) :=
      hp.subset (List.mem_cons_self d rest)
    have hmax :
        ((tasks.filter (fun t => t.column_id == col)).map TaskDoc.position).maximum =
          (d.position : WithBot Int) := by
      apply List.maximum_eq_coe_iff.mpr
      refine ⟨List.mem_map_of_mem TaskDoc.position hmem, ?_⟩
      intro a ha
      obtain ⟨x, hx, rfl⟩ := List.mem_map.mp ha
      have hx2 : x ∈ d :: rest := hp.symm.subset hx
      rcases List.mem_cons.mp hx2 with h1 | h2
      · rw [h1]
      · exact List.rel_of_sorted_cons hsort x h2
    rw [hmax]
    simp

/-- Running `create_task` on a store that does not already use the fresh id:
the new document is appended, re-fetched, and carries the end-of-column
position. -/
theorem create_task_run (st : Store) (fid : String) (p : TaskCreate)
    (hfresh : ∀ t ∈ st.tasks, t.id ≠ fid) :
    ∃ t, (create_task st fid p).2 = some t ∧
      (create_task st fid p).1.tasks = st.tasks ++ [t] ∧
      t.position = specEndPos st.tasks p.column_id ∧ t.id = fid := by
  refine ⟨{ id := fid, title := p.title, description := p.description,
            column_id := p.column_id,
            position := computedLastPos st.tasks p.column_id,
            priority := match p.priority with
              | some s => if s = "" then "normal" else s
              | none => "normal",
            tags := p.tags.getD [] },
          ?_, rfl, computedLastPos_eq_specEndPos _ _, rfl⟩
  apply find?_append_singleton
  · intro y hy
    simpa using hfresh y hy
  · simp

/-- The special rule of `update_task` never empties a non-empty updates dict
(when it fires it adds a `position` entry). -/
theorem taskUpdatesWithRule_isEmptyPatch (st : Store) (u : TaskUpdate)
    (h : u.isEmptyPatch = false) : (taskUpdatesWithRule st u).1.isEmptyPatch = false := by
  unfold taskUpdatesWithRule
  split
  · simp [TaskUpdate.isEmptyPatch]
  · exact h

/-! ## The claims -/

/-- Claim C1, counterexample: a Create Task request supplying the explicit
position 99 into a column whose tasks end at position 5 creates the task at
the computed position 6, not at 99 — the supplied value is not used. -/
theorem create_task_supplied_position_cex :
    ((create_task oneTaskStore idC payloadPos99).2.map TaskDoc.position) = some 6 ∧
    ((create_task oneTaskStore idC payloadPos99).2.map TaskDoc.position) ≠ some 99 := by
  exact ⟨by decide, by decide⟩

/-- Claim C1 (amended): for every Create Task request the position is always
computed as end-of-column; a supplied `position` value is ignored — the
endpoint's result does not depend on it at all. -/
theorem create_task_position_always_computed :
    (∀ st fid p q, create_task st fid { p with position := q } = create_task st fid p) ∧
    (∀ st fid p, (∀ t ∈ st.tasks, t.id ≠ fid) →
      (create_task st fid p).2.map TaskDoc.position =
        some (specEndPos st.tasks p.column_id)) := by
  constructor
  · intro _ _ _ _
    rfl
  · intro st fid p hfresh
    obtain ⟨t, h1, _, h3, _⟩ := create_task_run st fid p hfresh
    rw [h1, Option.map_some', h3]

/-- Witness for the amended C1 at a concrete input: the request supplying
position 99 still lands at the computed end of `"col1"`. -/
theorem create_task_position_always_computed_witness :
    (∀ t ∈ oneTaskStore.tasks, t.id ≠ idC) ∧
    (create_task oneTaskStore idC payloadPos99).2.map TaskDoc.position =
      some (specEndPos oneTaskStore.tasks payloadPos99.column_id) :=
  ⟨by decide, create_task_position_always_computed.2 oneTaskStore idC payloadPos99 (by decide)⟩

/-- Claim C2: a Create Task request without an explicit position assigns the
maximum position among tasks of the same column plus 1, or 0 if the column is
empty; in particular positions `{0,1,2}` yield 3 and an empty column yields
0. -/
theorem create_task_end_of_column :
    (∀ st fid p, (∀ t ∈ st.tasks, t.id ≠ fid) → p.position = none →
      ∃ t, (create_task st fid p).2 = some t ∧
        (create_task st fid p).1.tasks = st.tasks ++ [t] ∧
        t.position = specEndPos st.tasks p.column_id) ∧
    ((create_task threeTaskStore idC payloadNoPos).2.map TaskDoc.position = some 3) ∧
    ((create_task emptyStore idC payloadNoPos).2.map TaskDoc.position = some 0) := by
  refine ⟨?_, by decide, by decide⟩
  intro st fid p hfresh _
  obtain ⟨t, h1, h2, h3, _⟩ := create_task_run st fid p hfresh
  exact ⟨t, h1, h2, h3⟩

/-- Witness for C2 at a concrete input: creating with no position in the
column holding positions `{0,1,2}`. -/
theorem create_task_end_of_column_witness :
    (∀ t ∈ threeTaskStore.tasks, t.id ≠ idC) ∧ payloadNoPos.position = none ∧
    (∃ t, (create_task threeTaskStore idC payloadNoPos).2 = some t ∧
      (create_task threeTaskStore idC payloadNoPos).1.tasks = threeTaskStore.tasks ++ [t] ∧
      t.position = specEndPos threeTaskStore.tasks payloadNoPos.column_id) :=
  ⟨by decide, rfl, create_task_end_of_column.1 threeTaskStore idC payloadNoPos (by decide) rfl⟩

/-- Claim C7: Update Column with a well-formed id and a patch whose fields are
all absent/null returns the nothing-changed indicator, performs no store
operation, and leaves the store untouched — whether or not the column
exists. -/
theorem update_column_empty_patch_noop :
    ∀ st s oid payload, parseObjectId s = some oid →
      payload.name = none → payload.position = none →
      update_column st s payload = ⟨st, [], .ok .noChange⟩ := by
  intro st s oid payload hp hn hq
  simp [update_column, hp, ColumnUpdate.isEmptyPatch, hn, hq]

/-- Witness for C7 at a concrete input: an empty patch against a store holding
no column with the given (well-formed) id. -/
theorem update_column_empty_patch_noop_witness :
    parseObjectId idD = some idD ∧ emptyColPatch.name = none ∧ emptyColPatch.position = none ∧
    update_column emptyStore idD emptyColPatch = ⟨emptyStore, [], .ok .noChange⟩ :=
  ⟨by decide, rfl, rfl,
   update_column_empty_patch_noop emptyStore idD idD emptyColPatch (by decide) rfl rfl⟩

/-- Claim C8: List Columns returns every column document, sorted ascending by
`position` with a missing `position` read as 0 (`colPosLe`), so the output is
non-decreasing in position; the handler is total (no error branch). -/
theorem list_columns_sorted_and_complete :
    ∀ st : Store,
      List.Sorted colPosLe (list_columns st) ∧ (list_columns st).Perm st.columns :=
  fun st =>
    ⟨List.sorted_insertionSort colPosLe st.columns,
     List.perm_insertionSort colPosLe st.columns⟩

/-- Claim C10: a List Tasks request whose `column_id` query parameter is the
empty string drops the filter — it behaves exactly like the unfiltered
request and returns all tasks sorted by position; filtering happens only for
a non-empty parameter. -/
theorem list_tasks_empty_filter_dropped :
    ∀ st : Store,
      list_tasks st (some "") = list_tasks st none ∧
      (list_tasks st (some "")).Perm st.tasks ∧
      List.Sorted taskPosLe (list_tasks st (some "")) ∧
      (∀ s, s ≠ "" → list_tasks st (some s) =
        List.insertionSort taskPosLe (st.tasks.filter (fun t => t.column_id == s))) := by
  intro st
  refine ⟨rfl, ?_, ?_, ?_⟩
  · simpa [list_tasks] using List.perm_insertionSort taskPosLe st.tasks
  · simpa [list_tasks] using List.sorted_insertionSort taskPosLe st.tasks
  · intro s hs
    simp [list_tasks, hs]

/-- Witness for C10 at a concrete input: a non-empty filter value on a store
that also holds tasks of other columns. -/
theorem list_tasks_empty_filter_dropped_witness :
    ("x" : String) ≠ "" ∧
    list_tasks mixedStore (some "x") =
      List.insertionSort taskPosLe (mixedStore.tasks.filter (fun t => t.column_id == "x")) :=
  ⟨by decide, (list_tasks_empty_filter_dropped mixedStore).2.2.2 "x" (by decide)⟩

/-- Claim C3: an Update Task patch containing `column_id` but no `position`
recomputes the task's position as end of the target column (the same
maximum-plus-1-or-0 rule as creation, over the pre-update store); a patch
that carries `position` uses it as given. -/
theorem update_task_move_position_rule :
    ∀ st tid payload oid t0,
      parseObjectId tid = some oid →
      st.tasks.find? (fun x => x.id == oid) = some t0 →
      ((∀ c, payload.column_id = some c → payload.position = none →
        ∃ t1, (update_task st tid payload).res = .ok (.doc t1) ∧
          t1.position = specEndPos st.tasks c ∧ t1.column_id = c) ∧
       (∀ q, payload.position = some q →
        ∃ t1, (update_task st tid payload).res = .ok (.doc t1) ∧ t1.position = q)) := by
  intro st tid payload oid t0 hp hfind
  constructor
  · intro c hc hq
    have hrule : taskUpdatesWithRule st payload =
        ({ payload with position := some (computedLastPos st.tasks c) },
         [StoreOp.taskFindSorted]) := by
      simp [taskUpdatesWithRule, hc, hq]
    have hne : ({ payload with position := some (computedLastPos st.tasks c) } :
        TaskUpdate).isEmptyPatch = false := by
      simp [TaskUpdate.isEmptyPatch, hc]
    have hfind2 := find?_updateFirst (fun t => t.id == oid)
        (applyTaskSet { payload with position := some (computedLastPos st.tasks c) })
        st.tasks t0 (fun _ => rfl) hfind
    refine ⟨applyTaskSet { payload with position := some (computedLastPos st.tasks c) } t0,
            ?_, ?_, ?_⟩
    · simp [update_task, hp, hrule, hne, hfind2]
    · simp [applyTaskSet, computedLastPos_eq_specEndPos]
    · simp [applyTaskSet, hc]
  · intro q hq
    have hrule : taskUpdatesWithRule st payload = (payload, []) := by
      simp [taskUpdatesWithRule, hq]
    have hne : payload.isEmptyPatch = false := by
      simp [TaskUpdate.isEmptyPatch, hq]
    have hfind2 := find?_updateFirst (fun t => t.id == oid) (applyTaskSet payload)
        st.tasks t0 (fun _ => rfl) hfind
    refine ⟨applyTaskSet payload t0, ?_, ?_⟩
    · simp [update_task, hp, hrule, hne, hfind2]
    · simp [applyTaskSet, hq]

/-- Witness for C3 at concrete inputs: moving the fixture task to `"col2"`
without a position, and patching it with the explicit position 7. -/
theorem update_task_move_position_rule_witness :
    (∃ t1, (update_task baseStore idB movePatch).res = .ok (.doc t1) ∧
      t1.position = specEndPos baseStore.tasks "col2" ∧ t1.column_id = "col2") ∧
    (∃ t1, (update_task baseStore idB pos7Patch).res = .ok (.doc t1) ∧ t1.position = 7) := by
  constructor
  · exact (update_task_move_position_rule baseStore idB movePatch idB
      ⟨idB, "task one", none, idA, 0, "normal", []⟩ (by decide) (by decide)).1 "col2" rfl rfl
  · exact (update_task_move_position_rule baseStore idB pos7Patch idB
      ⟨idB, "task one", none, idA, 0, "normal", []⟩ (by decide) (by decide)).2 7 rfl

/-- Claim C4, counterexample: with a well-formed id and an empty patch,
Update Task does not behave like Update Column — it performs a store update
call (its operation list is non-empty) and raises a store error instead of
returning the nothing-changed indicator, while Update Column returns the
indicator with no store call. -/
theorem update_task_empty_patch_cex :
    (update_task baseStore idB emptyTaskPatch).res = .error .storeError ∧
    (update_task baseStore idB emptyTaskPatch).ops ≠ [] ∧
    (update_column baseStore idA emptyColPatch).res = .ok .noChange ∧
    (update_column baseStore idA emptyColPatch).ops = [] := by
  exact ⟨by decide, by decide, by decide, by decide⟩

/-- Claim C4 (amended): Update Task has no empty-patch guard: with a
well-formed id and an empty patch it issues the store update unconditionally
with an empty `$set` document, which the store rejects, so the request fails
with a store error (500-equivalent) rather than returning a nothing-changed
indicator; the store contents are unchanged. -/
theorem update_task_empty_patch_store_error :
    ∀ st tid oid payload, parseObjectId tid = some oid →
      payload.isEmptyPatch = true →
      update_task st tid payload = ⟨st, [StoreOp.taskUpdateOne], .error .storeError⟩ := by
  intro st tid oid payload hp he
  simp only [TaskUpdate.isEmptyPatch, Bool.and_eq_true, Option.isNone_iff_eq_none] at he
  obtain ⟨⟨⟨⟨⟨h1, h2⟩, h3⟩, h4⟩, h5⟩, h6⟩ := he
  have hrule : taskUpdatesWithRule st payload = (payload, []) := by
    simp [taskUpdatesWithRule, h3]
  simp [update_task, hp, hrule, TaskUpdate.isEmptyPatch, h1, h2, h3, h4, h5, h6]

/-- Witness for the amended C4 at a concrete input: the empty patch against
the fixture task. -/
theorem update_task_empty_patch_store_error_witness :
    parseObjectId idB = some idB ∧ emptyTaskPatch.isEmptyPatch = true ∧
    update_task baseStore idB emptyTaskPatch =
      ⟨baseStore, [StoreOp.taskUpdateOne], .error .storeError⟩ :=
  ⟨by decide, rfl,
   update_task_empty_patch_store_error baseStore idB idB emptyTaskPatch (by decide) rfl⟩

/-- Claim C5: Delete Column with a well-formed id removes the first column
whose id matches the parsed ObjectId, removes exactly the tasks whose
`column_id` string equals the raw path id (all others survive unchanged, in
order), and the task cascade runs even when no column matched, in which case
the endpoint reports NotFound. -/
theorem delete_column_cascade :
    ∀ st cid oid, parseObjectId cid = some oid →
      (delete_column st cid).store.columns = deleteFirst (fun c => c.id == oid) st.columns ∧
      (delete_column st cid).store.tasks = st.tasks.filter (fun t => !(t.column_id == cid)) ∧
      (∀ t ∈ st.tasks, t.column_id = cid → t ∉ (delete_column st cid).store.tasks) ∧
      (∀ t ∈ st.tasks, t.column_id ≠ cid → t ∈ (delete_column st cid).store.tasks) ∧
      ((∀ c ∈ st.columns, c.id ≠ oid) → (delete_column st cid).res = .error .notFound) := by
  intro st cid oid hp
  have hstore : (delete_column st cid).store =
      ⟨deleteFirst (fun c => c.id == oid) st.columns,
       st.tasks.filter (fun t => !(t.column_id == cid))⟩ := by
    simp [delete_column, hp]
  refine ⟨by rw [hstore], by rw [hstore], ?_, ?_, ?_⟩
  · intro t _ hcol
    rw [hstore]
    simp [List.mem_filter, hcol]
  · intro t ht hne
    rw [hstore]
    simp only [List.mem_filter]
    exact ⟨ht, by simpa using hne⟩
  · intro hno
    have hany : st.columns.any (fun c => c.id == oid) = false := by
      cases hb : st.columns.any (fun c => c.id == oid) with
      | false => rfl
      | true =>
        obtain ⟨c, hc, hcid⟩ := List.any_eq_true.mp hb
        exact absurd (by simpa using hcid) (hno c hc)
    simp [delete_column, hp, hany]

/-- Witness for C5 at concrete inputs: deleting the fixture column removes
its task, and deleting a well-formed but non-existent column reports
NotFound (after the cascade ran). -/
theorem delete_column_cascade_witness :
    ((delete_column baseStore idA).store.tasks = []) ∧
    ((delete_column emptyStore idD).res = .error .notFound) := by
  constructor
  · have h := (delete_column_cascade baseStore idA idA (by decide)).2.1
    rw [h]
    decide
  · exact (delete_column_cascade emptyStore idD idD (by decide)).2.2.2.2 (by decide)

/-- Claim C6, counterexample: an Update Column request with a well-formed id
that matches no document but whose patch is empty returns the
nothing-changed indicator, not NotFound — the universal "well-formed but
unmatched id fails with NotFound" does not hold for empty patches. -/
theorem notfound_rule_cex :
    (update_column emptyStore idD emptyColPatch).res = .ok .noChange ∧
    (update_column emptyStore idD emptyColPatch).res ≠ .error .notFound := by
  exact ⟨by decide, by decide⟩

/-- Claim C6 (amended): for every Column/Task update/delete request, a
malformed path id fails with InvalidId before any store operation and with
the store untouched; a well-formed id matching no document fails with
NotFound — detected by the post-mutation lookup or the delete count —
provided the request reaches the store mutation (every delete, and every
update whose patch is non-empty), and the targeted collection's contents are
unchanged relative to the id's prior absence. -/
theorem id_errors_rule :
    (∀ st s payload, parseObjectId s = none →
      update_column st s payload = ⟨st, [], .error .invalidId⟩) ∧
    (∀ st s payload, parseObjectId s = none →
      update_task st s payload = ⟨st, [], .error .invalidId⟩) ∧
    (∀ st s, parseObjectId s = none → delete_column st s = ⟨st, [], .error .invalidId⟩) ∧
    (∀ st s, parseObjectId s = none → delete_task st s = ⟨st, [], .error .invalidId⟩) ∧
    (∀ st s oid payload, parseObjectId s = some oid →
      ColumnUpdate.isEmptyPatch payload = false → (∀ c ∈ st.columns, c.id ≠ oid) →
      (update_column st s payload).res = .error .notFound ∧
      (update_column st s payload).store = st) ∧
    (∀ st s oid payload, parseObjectId s = some oid →
      TaskUpdate.isEmptyPatch payload = false → (∀ t ∈ st.tasks, t.id ≠ oid) →
      (update_task st s payload).res = .error .notFound ∧
      (update_task st s payload).store = st) ∧
    (∀ st s oid, parseObjectId s = some oid → (∀ c ∈ st.columns, c.id ≠ oid) →
      (delete_column st s).res = .error .notFound ∧
      (delete_column st s).store.columns = st.columns) ∧
    (∀ st s oid, parseObjectId s = some oid → (∀ t ∈ st.tasks, t.id ≠ oid) →
      (delete_task st s).res = .error .notFound ∧ (delete_task st s).store = st) := by
  refine ⟨?_, ?_, ?_, ?_, ?_, ?_, ?_, ?_⟩
  · intro st s payload h
    simp [update_column, h]
  · intro st s payload h
    simp [update_task, h]
  · intro st s h
    simp [delete_column, h]
  · intro st s h
    simp [delete_task, h]
  · intro st s oid payload hp hne hno
    have hfalse : ∀ c ∈ st.columns, ((fun c => c.id == oid) c) = false :=
      fun c hc => by simpa using hno c hc
    have hupd : updateFirst (fun c => c.id == oid) (applyColumnSet payload) st.columns =
        st.columns := updateFirst_eq_self _ _ _ hfalse
    have hfind : st.columns.find? (fun c => c.id == oid) = none :=
      List.find?_eq_none.mpr (fun c hc => by simpa using hno c hc)
    constructor
    · simp [update_column, hp, hne, hupd, hfind]
    · simp [update_column, hp, hne, hupd]
  · intro st s oid payload hp hne hno
    have hfalse : ∀ t ∈ st.tasks, ((fun t => t.id == oid) t) = false :=
      fun t ht => by simpa using hno t ht
    have hupd : ∀ f, updateFirst (fun t => t.id == oid) f st.tasks = st.tasks :=
      fun f => updateFirst_eq_self _ _ _ hfalse
    have hfind : st.tasks.find? (fun t => t.id == oid) = none :=
      List.find?_eq_none.mpr (fun t ht => by simpa using hno t ht)
    have hne2 := taskUpdatesWithRule_isEmptyPatch st payload hne
    constructor
    · simp [update_task, hp, hne2, hupd, hfind]
    · simp [update_task, hp, hne2, hupd]
  · intro st s oid hp hno
    have hfalse : ∀ c ∈ st.columns, ((fun c => c.id == oid) c) = false :=
      fun c hc => by simpa using hno c hc
    have hany : st.columns.any (fun c => c.id == oid) = false := by
      cases hb : st.columns.any (fun c => c.id == oid) with
      | false => rfl
      | true =>
        obtain ⟨c, hc, hcid⟩ := List.any_eq_true.mp hb
        exact absurd (by simpa using hcid) (hno c hc)
    have hdel : deleteFirst (fun c => c.id == oid) st.columns = st.columns :=
      deleteFirst_eq_self _ _ hfalse
    constructor
    · simp [delete_column, hp, hany]
    · simp [delete_column, hp, hdel]
  · intro st s oid hp hno
    have hfalse : ∀ t ∈ st.tasks, ((fun t => t.id == oid) t) = false :=
      fun t ht => by simpa using hno t ht
    have hany : st.tasks.any (fun t => t.id == oid) = false := by
      cases hb : st.tasks.any (fun t => t.id == oid) with
      | false => rfl
      | true =>
        obtain ⟨t, ht, htid⟩ := List.any_eq_true.mp hb
        exact absurd (by simpa using htid) (hno t ht)
    have hdel : deleteFirst (fun t => t.id == oid) st.tasks = st.tasks :=
      deleteFirst_eq_self _ _ hfalse
    constructor
    · simp [delete_task, hp, hany]
    · simp [delete_task, hp, hdel]

/-- Witness for the amended C6: each of its eight cases applied at concrete
inputs (malformed id `"zz"`; well-formed unused id against the fixture
store). -/
theorem id_errors_rule_witness :
    (update_column baseStore badId renamePatch = ⟨baseStore, [], .error .invalidId⟩) ∧
    (update_task baseStore badId pos7Patch = ⟨baseStore, [], .error .invalidId⟩) ∧
    (delete_column baseStore badId = ⟨baseStore, [], .error .invalidId⟩) ∧
    (delete_task baseStore badId = ⟨baseStore, [], .error .invalidId⟩) ∧
    ((update_column baseStore idD renamePatch).res = .error .notFound ∧
      (update_column baseStore idD renamePatch).store = baseStore) ∧
    ((update_task baseStore idD pos7Patch).res = .error .notFound ∧
      (update_task baseStore idD pos7Patch).store = baseStore) ∧
    ((delete_column baseStore idD).res = .error .notFound ∧
      (delete_column baseStore idD).store.columns = baseStore.columns) ∧
    ((delete_task baseStore idD).res = .error .notFound ∧
      (delete_task baseStore idD).store = baseStore) := by
  refine ⟨?_, ?_, ?_, ?_, ?_, ?_, ?_, ?_⟩
  · exact id_errors_rule.1 baseStore badId renamePatch (by decide)
  · exact id_errors_rule.2.1 baseStore badId pos7Patch (by decide)
  · exact id_errors_rule.2.2.1 baseStore badId (by decide)
  · exact id_errors_rule.2.2.2.1 baseStore badId (by decide)
  · exact id_errors_rule.2.2.2.2.1 baseStore idD idD renamePatch (by decide) (by decide)
      (by decide)
  · exact id_errors_rule.2.2.2.2.2.1 baseStore idD idD pos7Patch (by decide) (by decide)
      (by decide)
  · exact id_errors_rule.2.2.2.2.2.2.1 baseStore idD idD (by decide) (by decide)
  · exact id_errors_rule.2.2.2.2.2.2.2 baseStore idD idD (by decide) (by decide)

/-- Claim C9: the diagnostics endpoint is total over every store condition —
`db` absent, collection enumeration succeeding, or collection enumeration
failing — reporting at most 10 collection names, and rendering a query
failure as status text holding the error message truncated to 50
characters. -/
theorem test_database_never_raises :
    ∀ dbc urlSet nameSet,
      (test_database dbc urlSet nameSet).collections.length ≤ 10 ∧
      (∀ h e, dbc = some h → h.listCollectionNames = .error e →
        (test_database dbc urlSet nameSet).database =
          "⚠️  Connected but Error: " ++ strTrunc e 50 ∧
        (strTrunc e 50).length ≤ 50) ∧
      (dbc = none →
        (test_database dbc urlSet nameSet).database = "⚠️  Available but not initialized") := by
  intro dbc urlSet nameSet
  refine ⟨?_, ?_, ?_⟩
  · cases dbc with
    | none => simp [test_database]
    | some h =>
      cases hc : h.listCollectionNames with
      | ok cols =>
        simp only [test_database, hc]
        calc (cols.take 10).length ≤ min 10 cols.length := by rw [List.length_take]
          _ ≤ 10 := Nat.min_le_left _ _
      | error e => simp [test_database, hc]
  · intro h e hdb he
    subst hdb
    refine ⟨by simp [test_database, he], ?_⟩
    calc (strTrunc e 50).length = (e.data.take 50).length := rfl
      _ ≤ 50 := by
        rw [List.length_take]
        exact Nat.min_le_left _ _
  · intro hdb
    subst hdb
    simp [test_database]

/-- Witness for C9 at a concrete input: a handle whose collection enumeration
fails with a 75-character message. -/
theorem test_database_never_raises_witness :
    (test_database (some failingHandle) true false).database =
      "⚠️  Connected but Error: " ++
        strTrunc "connection refused 127.0.0.1:27017 after 30000 ms of waiting for server" 50 ∧
    (strTrunc "connection refused 127.0.0.1:27017 after 30000 ms of waiting for server" 50).length
      ≤ 50 :=
  (test_database_never_raises (some failingHandle) true false).2.1 failingHandle _ rfl rfl

end Kanban
